import Mathlib

/-!
Shallow embedding of the augur-node log-processor code under verification.

The derived store (SQL tables accessed through knex) is modelled as lists of
typed rows; each knex operation is translated to the corresponding list
operation (`insert` appends, `update ... where` maps over matching rows,
`del / delete ... where` filters out matching rows, `first ... where` is
`List.find?`).  Each handler returns the mutated store together with an
ordered trace of its observable effects (database writes and event-emitter
publications), so that ordering claims about publication can be stated.
Handlers that can throw return `Except String`.
-/

namespace AugurNode

/-- Order state as used by the order handlers (types.ts OrderState). -/
inductive OrderState
  | OPEN
  | FILLED
  | CANCELED
deriving DecidableEq

/-- A row of the orders table (subset of columns read or written by the
order-canceled handlers). -/
structure OrdersRow where
  orderId : String
  marketId : String
  outcome : Nat
  price : Rat
  orderState : OrderState
deriving DecidableEq

/-- A row of the orders_canceled table, exactly the object inserted by
processOrderCanceledLog. -/
structure OrdersCanceledRow where
  orderId : String
  transactionHash : String
  logIndex : Nat
  blockNumber : Nat
deriving DecidableEq

/-- A row of the markets table (columns read by the complete-sets handler). -/
structure MarketsRow where
  marketId : String
  minPrice : Rat
  maxPrice : Rat
  numTicks : Rat
deriving DecidableEq

/-- A row of the completeSets table, exactly the CompleteSetsRow object built
by processCompleteSetsPurchasedOrSoldLog (the universe column is named
universeId here because universe is reserved in Lean). -/
structure CompleteSetsRow where
  marketId : String
  account : String
  blockNumber : Nat
  universeId : String
  eventName : String
  transactionHash : String
  logIndex : Nat
  tradeGroupId : String
  numCompleteSets : Rat
  numPurchasedOrSold : Rat
deriving DecidableEq

/-- A row of the initial_reports table (column touched by the
initial-report-redeemed handlers). -/
structure InitialReportsRow where
  marketId : String
  redeemed : Bool
deriving DecidableEq

/-- A row of the payouts dimension table resolved by insertPayout. -/
structure PayoutsRow where
  payoutID : Nat
  marketId : String
  payoutNumerators : List Nat
  invalid : Bool
deriving DecidableEq

/-- A row of the crowdsourcers table, exactly the object inserted by
processDisputeCrowdsourcerCreatedLog. -/
structure CrowdsourcersRow where
  blockNumber : Nat
  transactionHash : String
  logIndex : Nat
  crowdsourcerID : String
  marketID : String
  size : Rat
  payoutID : Nat
deriving DecidableEq

/-- A decoded FormattedEventLog carrying the union of the payload fields the
embedded handlers read (the universe field is named universeId in Lean). -/
structure FormattedEventLog where
  eventName : String
  blockNumber : Nat
  logIndex : Nat
  transactionHash : String
  orderId : String
  orderType : String
  market : String
  account : String
  universeId : String
  numCompleteSets : Nat
  tradeGroupId : String
  payoutNumerators : List Nat
  invalid : Bool
  disputeCrowdsourcer : String
  size : Rat
deriving DecidableEq

/-- The derived relational store: one list of rows per table touched by the
embedded handlers, plus the per-market open-interest aggregate as an
association list. -/
structure Store where
  orders : List OrdersRow
  orders_canceled : List OrdersCanceledRow
  markets : List MarketsRow
  completeSets : List CompleteSetsRow
  initial_reports : List InitialReportsRow
  open_interest : List (String × Rat)
  payouts : List PayoutsRow
  crowdsourcers : List CrowdsourcersRow
deriving DecidableEq

/-- The enrichment context read back from the orders table by the
order-canceled handlers (interface MarketIDAndOutcomeAndPrice), with the
orderType label assigned afterwards. -/
structure MarketIDAndOutcomeAndPrice where
  marketId : String
  outcome : Nat
  price : Rat
  orderType : String
deriving DecidableEq

/-- The payload handed to augurEmitter.emit by a handler: either the
CompleteSetsRow object just inserted, the raw log object, or the merged
Object.assign (\x7b\x7d, log, ordersRow) of the order-canceled handlers
(ctx is none when the orders lookup found no row). -/
inductive Payload
  | completeSetsRow (r : CompleteSetsRow)
  | rawLog (l : FormattedEventLog)
  | orderCanceled (l : FormattedEventLog) (ctx : Option MarketIDAndOutcomeAndPrice)
deriving DecidableEq

/-- One observable effect of a handler, in execution order: a database read,
a database write (update / insert / delete on the named table), or an
augurEmitter.emit publication. -/
inductive Effect
  | dbRead (table : String)
  | dbWrite (table : String)
  | emit (eventName : String) (payload : Payload)
deriving DecidableEq

/-- numTicksToTickSize from utils/convert-fixed-point-to-decimal:
tickSize = (maxPrice - minPrice) / numTicks. -/
def numTicksToTickSize (numTicks minPrice maxPrice : Rat) : Rat :=
  (maxPrice - minPrice) / numTicks

/-- augur.utils.convertOnChainAmountToDisplayAmount: the on-chain amount
scaled by the tick size. -/
def convertOnChainAmountToDisplayAmount (amount tickSize : Rat) : Rat :=
  amount * tickSize

/-- Sum of the numCompleteSets column over the stored fill rows of one
market. -/
def sumFills (cs : List CompleteSetsRow) (m : String) : Rat :=
  ((cs.filter (fun r => r.marketId == m)).map (fun r => r.numCompleteSets)).sum

/-- Update-or-insert of one key in the open-interest association list. -/
def setAssoc (l : List (String × Rat)) (k : String) (v : Rat) : List (String × Rat) :=
  match l with
  | [] => [(k, v)]
  | (k', v') :: rest => if k' == k then (k, v) :: rest else (k', v') :: setAssoc rest k v

/-- The cached open interest of a market (0 when no aggregate row exists). -/
def oiOf (db : Store) (m : String) : Rat :=
  (db.open_interest.lookup m).getD 0

/-- Modelled from the spec: updateOpenInterest is imported from
./order-filled/update-volumetrics, which is not among the provided sources.
Per the spec's OpenInterestAggregate entry it recomputes the per-market
cached total from the sum of the currently stored complete-set fill rows
(recomputed from scratch, not incrementally patched). -/
def updateOpenInterest (db : Store) (marketId : String) : Store :=
  { db with open_interest := setAssoc db.open_interest marketId (sumFills db.completeSets marketId) }

/-- processOrderCanceledLog (order-canceled.ts lines 14-21): set the order's
state to CANCELED, insert an orders_canceled record, read back the order's
(marketId, outcome, price), attach the buy/sell label, and emit OrderCanceled
with Object.assign (\x7b\x7d, log, ordersRow). -/
def processOrderCanceledLog (db : Store) (log : FormattedEventLog) :
    Except String (Store × List Effect) :=
  let orderTypeLabel := if log.orderType == "0" then "buy" else "sell"
  let orders1 := db.orders.map (fun r =>
    if r.orderId == log.orderId then { r with orderState := OrderState.CANCELED } else r)
  let canceled1 := db.orders_canceled ++
    [{ orderId := log.orderId, transactionHash := log.transactionHash,
       logIndex := log.logIndex, blockNumber := log.blockNumber }]
  let db1 : Store := { db with orders := orders1, orders_canceled := canceled1 }
  let ordersRow := db1.orders.find? (fun r => r.orderId == log.orderId)
  let ctx := ordersRow.map (fun r =>
    ({ marketId := r.marketId, outcome := r.outcome, price := r.price,
       orderType := orderTypeLabel } : MarketIDAndOutcomeAndPrice))
  Except.ok (db1,
    [Effect.dbWrite "orders", Effect.dbWrite "orders_canceled", Effect.dbRead "orders",
     Effect.emit "OrderCanceled" (Payload.orderCanceled log ctx)])

/-- processOrderCanceledLogRemoval (order-canceled.ts lines 23-30): set the
order's state to OPEN, delete the orders_canceled records with this orderId,
read back the order's context and emit OrderCanceled. -/
def processOrderCanceledLogRemoval (db : Store) (log : FormattedEventLog) :
    Except String (Store × List Effect) :=
  let orderTypeLabel := if log.orderType == "0" then "buy" else "sell"
  let orders1 := db.orders.map (fun r =>
    if r.orderId == log.orderId then { r with orderState := OrderState.OPEN } else r)
  let canceled1 := db.orders_canceled.filter (fun r => !(r.orderId == log.orderId))
  let db1 : Store := { db with orders := orders1, orders_canceled := canceled1 }
  let ordersRow := db1.orders.find? (fun r => r.orderId == log.orderId)
  let ctx := ordersRow.map (fun r =>
    ({ marketId := r.marketId, outcome := r.outcome, price := r.price,
       orderType := orderTypeLabel } : MarketIDAndOutcomeAndPrice))
  Except.ok (db1,
    [Effect.dbWrite "orders", Effect.dbWrite "orders_canceled", Effect.dbRead "orders",
     Effect.emit "OrderCanceled" (Payload.orderCanceled log ctx)])

/-- processInitialReporterRedeemedLog (initial-report-redeemed.ts lines 7-10):
set redeemed to true on the market's initial_reports row and emit the raw
log. -/
def processInitialReporterRedeemedLog (db : Store) (log : FormattedEventLog) :
    Except String (Store × List Effect) :=
  Except.ok ({ db with initial_reports := db.initial_reports.map (fun r =>
      if r.marketId == log.market then { r with redeemed := true } else r) },
    [Effect.dbWrite "initial_reports",
     Effect.emit "InitialReporterRedeemed" (Payload.rawLog log)])

/-- processInitialReporterRedeemedLogRemoval (initial-report-redeemed.ts
lines 12-15): set redeemed to false and emit the raw log. -/
def processInitialReporterRedeemedLogRemoval (db : Store) (log : FormattedEventLog) :
    Except String (Store × List Effect) :=
  Except.ok ({ db with initial_reports := db.initial_reports.map (fun r =>
      if r.marketId == log.market then { r with redeemed := false } else r) },
    [Effect.dbWrite "initial_reports",
     Effect.emit "InitialReporterRedeemed" (Payload.rawLog log)])

/-- processCompleteSetsPurchasedOrSoldLog (part_000 lines 10-36): read the
market's price bounds, throw when the markets row is missing, convert the
on-chain amount to a display amount via the tick size, insert the
completeSets row, emit the inserted row, and trigger the open-interest
recomputation. -/
def processCompleteSetsPurchasedOrSoldLog (db : Store) (log : FormattedEventLog) :
    Except String (Store × List Effect) :=
  let marketId := log.market
  match db.markets.find? (fun r => r.marketId == marketId) with
  | none => Except.error "market min price, max price, category, and/or num ticks not found"
  | some marketsRow =>
    let tickSize := numTicksToTickSize marketsRow.numTicks marketsRow.minPrice marketsRow.maxPrice
    let numCompleteSets :=
      convertOnChainAmountToDisplayAmount (log.numCompleteSets : Rat) tickSize
    let completeSetPurchasedData : CompleteSetsRow :=
      { marketId := marketId, account := log.account, blockNumber := log.blockNumber,
        universeId := log.universeId, eventName := log.eventName,
        transactionHash := log.transactionHash, logIndex := log.logIndex,
        tradeGroupId := log.tradeGroupId, numCompleteSets := numCompleteSets,
        numPurchasedOrSold := numCompleteSets }
    let db1 : Store := { db with completeSets := db.completeSets ++ [completeSetPurchasedData] }
    let db2 := updateOpenInterest db1 marketId
    Except.ok (db2,
      [Effect.dbRead "markets", Effect.dbWrite "completeSets",
       Effect.emit log.eventName (Payload.completeSetsRow completeSetPurchasedData),
       Effect.dbWrite "open_interest"])

/-- processCompleteSetsPurchasedOrSoldLogRemoval (part_000 lines 38-45):
delete the completeSets rows keyed by (transactionHash, logIndex), emit the
raw log, and trigger the open-interest recomputation. -/
def processCompleteSetsPurchasedOrSoldLogRemoval (db : Store) (log : FormattedEventLog) :
    Except String (Store × List Effect) :=
  let db1 : Store := { db with completeSets := db.completeSets.filter (fun r =>
    !(r.transactionHash == log.transactionHash && r.logIndex == log.logIndex)) }
  let db2 := updateOpenInterest db1 log.market
  Except.ok (db2,
    [Effect.dbWrite "completeSets",
     Effect.emit log.eventName (Payload.rawLog log),
     Effect.dbWrite "open_interest"])

/-- Modelled from the spec: insertPayout is imported from ./database, which
is not among the provided sources.  Per the spec it resolves the shared
payout dimension keyed by (market, payoutNumerators, invalid) as an
idempotent find-or-create inside the caller's transaction, returning the
payout row's id. -/
def insertPayout (db : Store) (market : String) (payoutNumerators : List Nat)
    (invalid : Bool) : Store × Nat :=
  match db.payouts.find? (fun r =>
      r.marketId == market && r.payoutNumerators == payoutNumerators && r.invalid == invalid) with
  | some r => (db, r.payoutID)
  | none =>
    let payoutID := db.payouts.length
    ({ db with payouts := db.payouts ++
        [{ payoutID := payoutID, marketId := market,
           payoutNumerators := payoutNumerators, invalid := invalid }] }, payoutID)

/-- processDisputeCrowdsourcerCreatedLog (part_000 lines 52-69): resolve the
payout id via insertPayout, insert the crowdsourcers row referencing it, and
emit the raw log; both writes happen in the same transaction. -/
def processDisputeCrowdsourcerCreatedLog (db : Store) (log : FormattedEventLog) :
    Except String (Store × List Effect) :=
  let res := insertPayout db log.market log.payoutNumerators log.invalid
  let db1 := res.1
  let payoutID := res.2
  let crowdsourcerToInsert : CrowdsourcersRow :=
    { blockNumber := log.blockNumber, transactionHash := log.transactionHash,
      logIndex := log.logIndex, crowdsourcerID := log.disputeCrowdsourcer,
      marketID := log.market, size := log.size, payoutID := payoutID }
  Except.ok ({ db1 with crowdsourcers := db1.crowdsourcers ++ [crowdsourcerToInsert] },
    [Effect.dbWrite "payouts", Effect.dbWrite "crowdsourcers",
     Effect.emit "DisputeCrowdsourcerCreated" (Payload.rawLog log)])

/-- An error passed to the errorCallback of monitorEthereumNodeHealth:
either the RPC error forwarded as-is, or the constructed controller-mismatch
Error (carrying the configured controller and the found value). -/
inductive HealthError
  | rpc (err : String)
  | controllerMismatch (configured : String) (found : Option String)
deriving DecidableEq

/-- The body of the getController callback inside monitorEthereumNodeHealth
(monitor-ethereum-node-health.ts lines 15-24), as the ordered list of errors
it passes to the supplied errorCallback: the err branch appends the RPC
error, and, with no early return, the mismatch comparison then still runs
and appends the mismatch error whenever universeController differs from the
configured controller. -/
def getControllerCallback (err : Option String) (universeController : Option String)
    (controller : String) : List HealthError :=
  (match err with
   | some e => [HealthError.rpc e]
   | none => []) ++
  (if universeController ≠ some controller then
    [HealthError.controllerMismatch controller universeController]
   else [])

/-- The empty derived store (every table empty, no cached aggregate). -/
def emptyStore : Store :=
  { orders := [], orders_canceled := [], markets := [], completeSets := [],
    initial_reports := [], open_interest := [], payouts := [], crowdsourcers := [] }

/-- Shape of a successful run of the forward complete-sets handler: the
inserted row carries the log's identity and market, and the result is the
insert followed by the open-interest recomputation. -/
lemma processCompleteSets_ok_shape (db : Store) (log : FormattedEventLog)
    (marketsRow : MarketsRow)
    (hfind : db.markets.find? (fun r => r.marketId == log.market) = some marketsRow) :
    ∃ row : CompleteSetsRow,
      row.transactionHash = log.transactionHash ∧ row.logIndex = log.logIndex ∧
      row.marketId = log.market ∧
      row.numCompleteSets = convertOnChainAmountToDisplayAmount (log.numCompleteSets : Rat)
        (numTicksToTickSize marketsRow.numTicks marketsRow.minPrice marketsRow.maxPrice) ∧
      processCompleteSetsPurchasedOrSoldLog db log =
        Except.ok
          (updateOpenInterest { db with completeSets := db.completeSets ++ [row] } log.market,
           [Effect.dbRead "markets", Effect.dbWrite "completeSets",
            Effect.emit log.eventName (Payload.completeSetsRow row),
            Effect.dbWrite "open_interest"]) := by
  refine ⟨{ marketId := log.market, account := log.account, blockNumber := log.blockNumber,
            universeId := log.universeId, eventName := log.eventName,
            transactionHash := log.transactionHash, logIndex := log.logIndex,
            tradeGroupId := log.tradeGroupId,
            numCompleteSets := convertOnChainAmountToDisplayAmount (log.numCompleteSets : Rat)
              (numTicksToTickSize marketsRow.numTicks marketsRow.minPrice marketsRow.maxPrice),
            numPurchasedOrSold := convertOnChainAmountToDisplayAmount (log.numCompleteSets : Rat)
              (numTicksToTickSize marketsRow.numTicks marketsRow.minPrice marketsRow.maxPrice) },
          rfl, rfl, rfl, rfl, ?_⟩
  simp [processCompleteSetsPurchasedOrSoldLog, hfind]

/-!
### C10: double invocation of the error callback in the health monitor
-/

/-- C10: in monitorEthereumNodeHealth, when the periodic getController RPC
callback reports an error (so universeController is undefined), the supplied
errorCallback is invoked twice for that single tick: once with the RPC error
and then again with a controller-mismatch error, because the mismatch
comparison still executes after the error branch. -/
theorem C10_error_tick_invokes_callback_twice (e controller : String) :
    getControllerCallback (some e) none controller =
      [HealthError.rpc e, HealthError.controllerMismatch controller none] ∧
    (getControllerCallback (some e) none controller).length = 2 := by
  constructor <;> rfl

/-!
### C5: the concrete order-cancellation scenario
-/

/-- The pre-apply store of the C5 scenario: one OPEN order with id 0xABC. -/
def c5Store : Store :=
  { emptyStore with
    orders := [{ orderId := "0xABC", marketId := "0xMARKET", outcome := 1, price := 5,
                 orderState := OrderState.OPEN }] }

/-- The cancellation log of the C5 scenario: orderId 0xABC, orderType "0". -/
def c5Log : FormattedEventLog :=
  { eventName := "OrderCanceled", blockNumber := 7, logIndex := 0, transactionHash := "0xTX",
    orderId := "0xABC", orderType := "0", market := "0xMARKET", account := "0xACCT",
    universeId := "0xUNI", numCompleteSets := 0, tradeGroupId := "", payoutNumerators := [],
    invalid := false, disputeCrowdsourcer := "", size := 0 }

/-- The store after applying the C5 cancellation log. -/
def c5AppliedStore : Store :=
  { c5Store with
    orders := [{ orderId := "0xABC", marketId := "0xMARKET", outcome := 1, price := 5,
                 orderState := OrderState.CANCELED }],
    orders_canceled := [{ orderId := "0xABC", transactionHash := "0xTX", logIndex := 0,
                          blockNumber := 7 }] }

/-- C5: applying a cancellation log with orderId "0xABC" and orderType "0"
sets that order's state to CANCELED, creates a cancellation record keyed by
"0xABC", and publishes an event whose orderType field is "buy"; reverting the
same log sets the order's state to OPEN and deletes the cancellation
record. -/
theorem C5_cancellation_scenario :
    processOrderCanceledLog c5Store c5Log =
      Except.ok (c5AppliedStore,
        [Effect.dbWrite "orders", Effect.dbWrite "orders_canceled", Effect.dbRead "orders",
         Effect.emit "OrderCanceled" (Payload.orderCanceled c5Log
           (some { marketId := "0xMARKET", outcome := 1, price := 5, orderType := "buy" }))]) ∧
    c5AppliedStore.orders.map OrdersRow.orderState = [OrderState.CANCELED] ∧
    c5AppliedStore.orders_canceled.map OrdersCanceledRow.orderId = ["0xABC"] ∧
    processOrderCanceledLogRemoval c5AppliedStore c5Log =
      Except.ok (c5Store,
        [Effect.dbWrite "orders", Effect.dbWrite "orders_canceled", Effect.dbRead "orders",
         Effect.emit "OrderCanceled" (Payload.orderCanceled c5Log
           (some { marketId := "0xMARKET", outcome := 1, price := 5, orderType := "buy" }))]) ∧
    c5Store.orders.map OrdersRow.orderState = [OrderState.OPEN] ∧
    c5Store.orders_canceled = [] := by
  refine ⟨rfl, rfl, rfl, rfl, rfl, rfl⟩

/-!
### C9: missing markets row aborts the complete-sets forward handler
-/

/-- Engine-side view of one forward complete-sets log: on handler success the
mutated store, on handler failure (aborted transaction) the unchanged
store. -/
def runCompleteSetsForwardOrKeep (db : Store) (log : FormattedEventLog) : Store :=
  match processCompleteSetsPurchasedOrSoldLog db log with
  | Except.ok (db1, _) => db1
  | Except.error _ => db

/-- C9: when the markets table has no row for the log's market, the forward
complete-sets handler fails with the source's exact error message before
performing any mutation, so the store (completeSets rows and open-interest
aggregate included) is unchanged on this failure. -/
theorem C9_missing_market_aborts (db : Store) (log : FormattedEventLog)
    (h : ∀ r ∈ db.markets, r.marketId ≠ log.market) :
    processCompleteSetsPurchasedOrSoldLog db log =
      Except.error "market min price, max price, category, and/or num ticks not found" ∧
    runCompleteSetsForwardOrKeep db log = db := by
  have hfind : db.markets.find? (fun r => r.marketId == log.market) = none := by
    apply List.find?_eq_none.mpr
    intro r hr
    simpa using h r hr
  constructor
  · simp [processCompleteSetsPurchasedOrSoldLog, hfind]
  · simp [runCompleteSetsForwardOrKeep, processCompleteSetsPurchasedOrSoldLog, hfind]

/-- The complete-sets log used by the C9 witness. -/
def c9Log : FormattedEventLog :=
  { eventName := "CompleteSetsPurchased", blockNumber := 3, logIndex := 1,
    transactionHash := "0xT9", orderId := "", orderType := "", market := "0xM9",
    account := "0xA9", universeId := "0xU9", numCompleteSets := 7, tradeGroupId := "tg",
    payoutNumerators := [], invalid := false, disputeCrowdsourcer := "", size := 0 }

/-- Witness for C9 at the empty store (whose markets table has no row). -/
theorem C9_missing_market_aborts_witness :
    processCompleteSetsPurchasedOrSoldLog emptyStore c9Log =
      Except.error "market min price, max price, category, and/or num ticks not found" ∧
    runCompleteSetsForwardOrKeep emptyStore c9Log = emptyStore :=
  C9_missing_market_aborts emptyStore c9Log (by simp [emptyStore])

/-!
### C1: round-trip invertibility of apply followed by revert
-/

/-- Apply the order-cancellation forward handler and then its removal
handler for the same log, returning the resulting store. -/
def roundTripOrderCanceled (db : Store) (log : FormattedEventLog) : Option Store :=
  match processOrderCanceledLog db log with
  | Except.ok (db1, _) =>
    match processOrderCanceledLogRemoval db1 log with
    | Except.ok (db2, _) => some db2
    | Except.error _ => none
  | Except.error _ => none

/-- A store holding one FILLED order, for the C1 counterexample. -/
def c1Store : Store :=
  { emptyStore with
    orders := [{ orderId := "0xF1", marketId := "0xM1", outcome := 0, price := 3,
                 orderState := OrderState.FILLED }] }

/-- A cancellation log for the FILLED order of c1Store. -/
def c1Log : FormattedEventLog :=
  { eventName := "OrderCanceled", blockNumber := 9, logIndex := 2, transactionHash := "0xT1",
    orderId := "0xF1", orderType := "1", market := "0xM1", account := "0xA1",
    universeId := "0xU1", numCompleteSets := 0, tradeGroupId := "", payoutNumerators := [],
    invalid := false, disputeCrowdsourcer := "", size := 0 }

/-- C1 counterexample: applying the cancellation forward handler and then its
removal handler to a store whose order is FILLED does not restore the
pre-apply store: the order's state ends as the fixed value OPEN, not the
prior value FILLED. -/
theorem C1_roundtrip_counterexample :
    roundTripOrderCanceled c1Store c1Log =
      some { c1Store with
        orders := [{ orderId := "0xF1", marketId := "0xM1", outcome := 0, price := 3,
                     orderState := OrderState.OPEN }] } ∧
    roundTripOrderCanceled c1Store c1Log ≠ some c1Store ∧
    c1Store.orders.map OrdersRow.orderState = [OrderState.FILLED] := by
  refine ⟨rfl, by decide, rfl⟩

/-- C1 amended: the cancellation round trip restores the exact pre-apply
store when every order row matching the log's orderId is currently OPEN and
no orders_canceled record with that orderId pre-exists; the removal handler
sets the state to the fixed value OPEN rather than the saved prior value. -/
theorem C1_roundtrip_amended (db : Store) (log : FormattedEventLog)
    (hOrders : ∀ r ∈ db.orders, r.orderId = log.orderId → r.orderState = OrderState.OPEN)
    (hCanceled : ∀ r ∈ db.orders_canceled, r.orderId ≠ log.orderId) :
    roundTripOrderCanceled db log = some db := by
  have horders : ∀ xs : List OrdersRow,
      (∀ r ∈ xs, r.orderId = log.orderId → r.orderState = OrderState.OPEN) →
      (xs.map (fun r =>
        if r.orderId == log.orderId then { r with orderState := OrderState.CANCELED } else r)).map
        (fun r =>
          if r.orderId == log.orderId then { r with orderState := OrderState.OPEN } else r) = xs := by
    intro xs hxs
    induction xs with
    | nil => rfl
    | cons a as ih =>
      simp only [List.map_cons]
      rw [ih (fun r hr h => hxs r (List.mem_cons_of_mem a hr) h)]
      by_cases h : a.orderId = log.orderId
      · have ha : a.orderState = OrderState.OPEN := hxs a (List.mem_cons_self a as) h
        obtain ⟨i, m, o, p, st⟩ := a
        dsimp only at h ha
        subst h
        subst ha
        simp
      · simp [h]
  have hcanc :
      (db.orders_canceled ++
        [({ orderId := log.orderId, transactionHash := log.transactionHash,
            logIndex := log.logIndex, blockNumber := log.blockNumber } : OrdersCanceledRow)]).filter
        (fun r => !(r.orderId == log.orderId)) = db.orders_canceled := by
    rw [List.filter_append]
    have h1 : db.orders_canceled.filter (fun r => !(r.orderId == log.orderId)) =
        db.orders_canceled :=
      List.filter_eq_self.mpr (fun r hr => by simpa using hCanceled r hr)
    simp [h1]
  simp only [roundTripOrderCanceled, processOrderCanceledLog, processOrderCanceledLogRemoval]
  rw [horders db.orders hOrders, hcanc]

/-- A store holding one OPEN order and no cancellation records, for the C1
witness. -/
def c1WitnessStore : Store :=
  { emptyStore with
    orders := [{ orderId := "0xF1", marketId := "0xM1", outcome := 0, price := 3,
                 orderState := OrderState.OPEN }] }

/-- Witness for the amended C1 round trip on a concrete OPEN order. -/
theorem C1_roundtrip_amended_witness :
    roundTripOrderCanceled c1WitnessStore c1Log = some c1WitnessStore :=
  C1_roundtrip_amended c1WitnessStore c1Log (by decide) (by decide)

/-!
### C2: behaviour when the removal precondition does not hold
-/

/-- A store whose order 0xD is FILLED (not CANCELED) and which holds one
cancellation record, for the C2 counterexample. -/
def c2Store : Store :=
  { emptyStore with
    orders := [{ orderId := "0xD", marketId := "0xM2", outcome := 0, price := 2,
                 orderState := OrderState.FILLED }],
    orders_canceled := [{ orderId := "0xD", transactionHash := "0xT2", logIndex := 1,
                          blockNumber := 4 }] }

/-- A cancellation log for order 0xD, used in Removal direction. -/
def c2Log : FormattedEventLog :=
  { eventName := "OrderCanceled", blockNumber := 4, logIndex := 1, transactionHash := "0xT2",
    orderId := "0xD", orderType := "1", market := "0xM2", account := "0xA2",
    universeId := "0xU2", numCompleteSets := 0, tradeGroupId := "", payoutNumerators := [],
    invalid := false, disputeCrowdsourcer := "", size := 0 }

/-- The store c2Store leaves behind after the removal handler runs. -/
def c2AfterStore : Store :=
  { c2Store with
    orders := [{ orderId := "0xD", marketId := "0xM2", outcome := 0, price := 2,
                 orderState := OrderState.OPEN }],
    orders_canceled := [] }

/-- C2 counterexample: invoking the removal handler while the order's state
is FILLED (not CANCELED) does not fail with InconsistentStateError and is not
a no-op: the handler succeeds and mutates the store, setting the state to
OPEN and deleting the cancellation record. -/
theorem C2_removal_without_precondition_counterexample :
    processOrderCanceledLogRemoval c2Store c2Log =
      Except.ok (c2AfterStore,
        [Effect.dbWrite "orders", Effect.dbWrite "orders_canceled", Effect.dbRead "orders",
         Effect.emit "OrderCanceled" (Payload.orderCanceled c2Log
           (some { marketId := "0xM2", outcome := 0, price := 2, orderType := "sell" }))]) ∧
    c2Store.orders.map OrdersRow.orderState = [OrderState.FILLED] ∧
    c2AfterStore ≠ c2Store := by
  refine ⟨rfl, rfl, by decide⟩

/-- C2 amended: the removal handler performs no precondition check at all:
even when a matching order row is not CANCELED, the handler still succeeds
(no InconsistentStateError exists in the code) and unconditionally writes the
state OPEN for that row. -/
theorem C2_removal_no_precondition_check (db : Store) (log : FormattedEventLog)
    (r : OrdersRow) (hr : r ∈ db.orders) (hid : r.orderId = log.orderId)
    (hstate : r.orderState ≠ OrderState.CANCELED) :
    ∃ db1 tr, processOrderCanceledLogRemoval db log = Except.ok (db1, tr) ∧
      { r with orderState := OrderState.OPEN } ∈ db1.orders := by
  refine ⟨_, _, rfl, ?_⟩
  exact List.mem_map.mpr ⟨r, hr, by simp [hid]⟩

/-- Witness for the amended C2 statement at the concrete FILLED order. -/
theorem C2_removal_no_precondition_check_witness :
    ∃ db1 tr, processOrderCanceledLogRemoval c2Store c2Log = Except.ok (db1, tr) ∧
      ({ orderId := "0xD", marketId := "0xM2", outcome := 0, price := 2,
         orderState := OrderState.OPEN } : OrdersRow) ∈ db1.orders :=
  C2_removal_no_precondition_check c2Store c2Log
    { orderId := "0xD", marketId := "0xM2", outcome := 0, price := 2,
      orderState := OrderState.FILLED }
    (by decide) (by decide) (by decide)

/-!
### C3: applying the same Forward log twice
-/

/-- Apply the complete-sets forward handler twice with the same log, without
an intervening removal, returning the resulting store. -/
def applyCompleteSetsTwice (db : Store) (log : FormattedEventLog) : Option Store :=
  match processCompleteSetsPurchasedOrSoldLog db log with
  | Except.ok (db1, _) =>
    match processCompleteSetsPurchasedOrSoldLog db1 log with
    | Except.ok (db2, _) => some db2
    | Except.error _ => none
  | Except.error _ => none

/-- Number of stored fill rows carrying the log's (transactionHash, logIndex)
identity. -/
def countKey (cs : List CompleteSetsRow) (log : FormattedEventLog) : Nat :=
  (cs.filter (fun r =>
    r.transactionHash == log.transactionHash && r.logIndex == log.logIndex)).length

/-- A store holding the market row needed by the complete-sets handler
(price range 0 to 1 with 100 ticks, so tick size 1/100). -/
def c3Store : Store :=
  { emptyStore with
    markets := [{ marketId := "0xM3", minPrice := 0, maxPrice := 1, numTicks := 100 }] }

/-- A complete-sets purchase log of 1000 on-chain units (10 display units)
for market 0xM3. -/
def c3Log : FormattedEventLog :=
  { eventName := "CompleteSetsPurchased", blockNumber := 3, logIndex := 1,
    transactionHash := "0xT3", orderId := "", orderType := "", market := "0xM3",
    account := "0xA3", universeId := "0xU3", numCompleteSets := 1000, tradeGroupId := "tg",
    payoutNumerators := [], invalid := false, disputeCrowdsourcer := "", size := 0 }

/-- C3 counterexample: applying the same complete-sets Forward log twice
without an intervening Removal does not fail on the second attempt: both
applications succeed, the store ends with two fill rows carrying the same
(transactionHash, logIndex) identity, and the open-interest aggregate is
double-counted (20 instead of 10 display units). -/
theorem C3_double_apply_counterexample :
    (applyCompleteSetsTwice c3Store c3Log).isSome = true ∧
    (applyCompleteSetsTwice c3Store c3Log).map
      (fun db2 => countKey db2.completeSets c3Log) = some 2 ∧
    (applyCompleteSetsTwice c3Store c3Log).map (fun db2 => oiOf db2 "0xM3") = some 20 := by
  refine ⟨rfl, rfl, ?_⟩
  simp only [applyCompleteSetsTwice, c3Store, c3Log, emptyStore,
    processCompleteSetsPurchasedOrSoldLog, updateOpenInterest, setAssoc, sumFills, oiOf,
    numTicksToTickSize, convertOnChainAmountToDisplayAmount]
  norm_num [List.find?, List.filter, List.lookup]

/-- C3 amended: whenever the first application of a complete-sets Forward log
succeeds, applying the same log a second time without an intervening Removal
also succeeds (no InconsistentStateError) and appends a second fill row with
the same (transactionHash, logIndex) identity, leaving the store with two
such rows. -/
theorem C3_double_apply_duplicates (db : Store) (log : FormattedEventLog)
    (db1 : Store) (tr1 : List Effect)
    (h1 : processCompleteSetsPurchasedOrSoldLog db log = Except.ok (db1, tr1)) :
    ∃ db2 tr2, processCompleteSetsPurchasedOrSoldLog db1 log = Except.ok (db2, tr2) ∧
      countKey db2.completeSets log = countKey db.completeSets log + 2 := by
  cases hfind : db.markets.find? (fun r => r.marketId == log.market) with
  | none => simp [processCompleteSetsPurchasedOrSoldLog, hfind] at h1
  | some marketsRow =>
    obtain ⟨row1, htx1, hli1, -, -, heq1⟩ := processCompleteSets_ok_shape db log marketsRow hfind
    rw [heq1] at h1
    obtain ⟨hdb1, -⟩ : _ ∧ _ := by simpa using h1
    have hmk : db1.markets = db.markets := by rw [← hdb1]; rfl
    have hcs1 : db1.completeSets = db.completeSets ++ [row1] := by rw [← hdb1]; rfl
    obtain ⟨row2, htx2, hli2, -, -, heq2⟩ := processCompleteSets_ok_shape db1 log marketsRow
      (by rw [hmk]; exact hfind)
    refine ⟨_, _, heq2, ?_⟩
    show countKey (db1.completeSets ++ [row2]) log = countKey db.completeSets log + 2
    rw [hcs1]
    simp [countKey, List.filter_append, htx1, hli1, htx2, hli2]

/-- The store after the first application of c3Log to c3Store: one fill row
of 10 display units and an open interest of 10 for market 0xM3. -/
def c3AppliedStore : Store :=
  { c3Store with
    completeSets := [{ marketId := "0xM3", account := "0xA3", blockNumber := 3,
                       universeId := "0xU3", eventName := "CompleteSetsPurchased",
                       transactionHash := "0xT3", logIndex := 1, tradeGroupId := "tg",
                       numCompleteSets := 10, numPurchasedOrSold := 10 }],
    open_interest := [("0xM3", 10)] }

/-- The effect trace of the first application of c3Log to c3Store. -/
def c3AppliedTrace : List Effect :=
  [Effect.dbRead "markets", Effect.dbWrite "completeSets",
   Effect.emit "CompleteSetsPurchased" (Payload.completeSetsRow
     { marketId := "0xM3", account := "0xA3", blockNumber := 3, universeId := "0xU3",
       eventName := "CompleteSetsPurchased", transactionHash := "0xT3", logIndex := 1,
       tradeGroupId := "tg", numCompleteSets := 10, numPurchasedOrSold := 10 }),
   Effect.dbWrite "open_interest"]

/-- Witness for the amended C3 statement at the concrete 10-unit fill. -/
theorem C3_double_apply_duplicates_witness :
    ∃ db2 tr2, processCompleteSetsPurchasedOrSoldLog c3AppliedStore c3Log =
        Except.ok (db2, tr2) ∧
      countKey db2.completeSets c3Log = countKey c3Store.completeSets c3Log + 2 :=
  C3_double_apply_duplicates c3Store c3Log c3AppliedStore c3AppliedTrace (by
    simp only [processCompleteSetsPurchasedOrSoldLog, c3Store, c3Log, c3AppliedStore,
      c3AppliedTrace, emptyStore, updateOpenInterest, setAssoc, sumFills,
      numTicksToTickSize, convertOnChainAmountToDisplayAmount]
    norm_num [List.find?, List.filter, List.lookup])

/-!
### C4: exact-key deletion and recomputed open interest
-/

lemma lookup_setAssoc_self (l : List (String × Rat)) (k : String) (v : Rat) :
    (setAssoc l k v).lookup k = some v := by
  induction l with
  | nil => simp [setAssoc]
  | cons p rest ih =>
    obtain ⟨k0, v0⟩ := p
    by_cases h : k0 = k
    · subst h
      simp [setAssoc]
    · have hb : (k == k0) = false := by simpa using Ne.symm h
      simp [setAssoc, h, List.lookup, hb, ih]

lemma lookup_setAssoc_ne (l : List (String × Rat)) (k m : String) (v : Rat) (h : m ≠ k) :
    (setAssoc l k v).lookup m = l.lookup m := by
  have hb : (m == k) = false := by simpa using h
  induction l with
  | nil => simp [setAssoc, List.lookup, hb]
  | cons p rest ih =>
    obtain ⟨k0, v0⟩ := p
    by_cases h0 : k0 = k
    · subst h0
      simp [setAssoc, List.lookup, hb]
    · cases hmk : (m == k0) <;> simp [setAssoc, h0, List.lookup, hmk, ih]

lemma sumFills_cons (a : CompleteSetsRow) (cs : List CompleteSetsRow) (m : String) :
    sumFills (a :: cs) m =
      (if a.marketId == m then a.numCompleteSets else 0) + sumFills cs m := by
  by_cases h : a.marketId == m <;> simp [sumFills, List.filter_cons, h]

lemma sumFills_append (cs : List CompleteSetsRow) (row : CompleteSetsRow) (m : String) :
    sumFills (cs ++ [row]) m =
      sumFills cs m + (if row.marketId == m then row.numCompleteSets else 0) := by
  by_cases h : row.marketId == m <;>
    simp [sumFills, List.filter_append, List.filter_cons, h]

lemma sumFills_filter_other (cs : List CompleteSetsRow) (p : CompleteSetsRow → Bool)
    (m : String) (h : ∀ r ∈ cs, r.marketId = m → p r = true) :
    sumFills (cs.filter p) m = sumFills cs m := by
  induction cs with
  | nil => rfl
  | cons a rest ih =>
    have hrest : ∀ r ∈ rest, r.marketId = m → p r = true :=
      fun r hr hm => h r (List.mem_cons_of_mem a hr) hm
    by_cases hm : a.marketId = m
    · have hpa : p a = true := h a (List.mem_cons_self a rest) hm
      simp [List.filter_cons, hpa, sumFills_cons, hm, ih hrest]
    · by_cases hpa : p a
      · simp [List.filter_cons, hpa, sumFills_cons, hm, ih hrest]
      · simp [List.filter_cons, hpa, sumFills_cons, hm, ih hrest]

/-- The open-interest aggregate invariant: for every market the cached value
equals the sum of the currently stored (non-removed) fill rows. -/
def oiInvariant (db : Store) : Prop :=
  ∀ m : String, oiOf db m = sumFills db.completeSets m

/-- C4: the removal handler deletes exactly the fill rows keyed by the log's
(transactionHash, logIndex) pair and no other row, and after both the forward
insert and the removal delete the per-market open-interest aggregate is
recomputed from the currently stored fill rows, so it equals the sum over the
non-removed fills for every market. -/
theorem C4_exact_key_delete_and_recomputed_aggregate (db : Store) (log : FormattedEventLog)
    (hInv : oiInvariant db)
    (hKey : ∀ r ∈ db.completeSets,
      r.transactionHash = log.transactionHash → r.logIndex = log.logIndex →
      r.marketId = log.market) :
    (∀ db1 tr, processCompleteSetsPurchasedOrSoldLogRemoval db log = Except.ok (db1, tr) →
      (∀ r : CompleteSetsRow, r ∈ db1.completeSets ↔
        r ∈ db.completeSets ∧
          ¬(r.transactionHash = log.transactionHash ∧ r.logIndex = log.logIndex)) ∧
      oiInvariant db1) ∧
    (∀ db1 tr, processCompleteSetsPurchasedOrSoldLog db log = Except.ok (db1, tr) →
      oiInvariant db1) := by
  constructor
  · intro db1 tr h
    simp only [processCompleteSetsPurchasedOrSoldLogRemoval, Except.ok.injEq,
      Prod.mk.injEq] at h
    obtain ⟨hdb1, -⟩ := h
    have hcs : db1.completeSets = db.completeSets.filter (fun r =>
        !(r.transactionHash == log.transactionHash && r.logIndex == log.logIndex)) := by
      rw [← hdb1]
      rfl
    constructor
    · intro r
      rw [hcs]
      simp [List.mem_filter, not_and, and_congr_right_iff]
      tauto
    · intro m
      by_cases hm : m = log.market
      · subst hm
        rw [← hdb1]
        simp [oiOf, updateOpenInterest, lookup_setAssoc_self]
      · have h1 : oiOf db1 m = oiOf db m := by
          rw [← hdb1]
          simp [oiOf, updateOpenInterest, lookup_setAssoc_ne _ _ _ _ hm]
        have h2 : sumFills db1.completeSets m = sumFills db.completeSets m := by
          rw [hcs]
          apply sumFills_filter_other
          intro r hr hrm
          cases hp : (!(r.transactionHash == log.transactionHash &&
              r.logIndex == log.logIndex)) with
          | true => rfl
          | false =>
            exfalso
            have : r.transactionHash = log.transactionHash ∧ r.logIndex = log.logIndex := by
              simpa using hp
            exact hm (hrm ▸ hKey r hr this.1 this.2)
        rw [h1, h2, hInv m]
  · intro db1 tr h
    cases hfind : db.markets.find? (fun r => r.marketId == log.market) with
    | none => simp [processCompleteSetsPurchasedOrSoldLog, hfind] at h
    | some marketsRow =>
      obtain ⟨row, -, -, hrm, -, heq⟩ := processCompleteSets_ok_shape db log marketsRow hfind
      rw [heq] at h
      simp only [Except.ok.injEq, Prod.mk.injEq] at h
      obtain ⟨hdb1, -⟩ := h
      have hcs : db1.completeSets = db.completeSets ++ [row] := by
        rw [← hdb1]
        rfl
      intro m
      by_cases hm : m = log.market
      · subst hm
        rw [← hdb1]
        simp [oiOf, updateOpenInterest, lookup_setAssoc_self]
      · have h1 : oiOf db1 m = oiOf db m := by
          rw [← hdb1]
          simp [oiOf, updateOpenInterest, lookup_setAssoc_ne _ _ _ _ hm]
        have h2 : sumFills db1.completeSets m = sumFills db.completeSets m := by
          rw [hcs, sumFills_append]
          have : (row.marketId == m) = false := by
            simp [hrm]
            exact fun hc => hm hc.symm
          simp [this]
        rw [h1, h2, hInv m]

/-- The complete-sets log used by the C4 witness. -/
def c4Log : FormattedEventLog :=
  { eventName := "CompleteSetsSold", blockNumber := 11, logIndex := 0,
    transactionHash := "0xT4", orderId := "", orderType := "", market := "0xM4",
    account := "0xA4", universeId := "0xU4", numCompleteSets := 5, tradeGroupId := "",
    payoutNumerators := [], invalid := false, disputeCrowdsourcer := "", size := 0 }

/-- Witness for C4 at the empty store, whose aggregate invariant holds
trivially. -/
theorem C4_exact_key_delete_and_recomputed_aggregate_witness :
    (∀ db1 tr, processCompleteSetsPurchasedOrSoldLogRemoval emptyStore c4Log =
        Except.ok (db1, tr) →
      (∀ r : CompleteSetsRow, r ∈ db1.completeSets ↔
        r ∈ emptyStore.completeSets ∧
          ¬(r.transactionHash = c4Log.transactionHash ∧ r.logIndex = c4Log.logIndex)) ∧
      oiInvariant db1) ∧
    (∀ db1 tr, processCompleteSetsPurchasedOrSoldLog emptyStore c4Log = Except.ok (db1, tr) →
      oiInvariant db1) :=
  C4_exact_key_delete_and_recomputed_aggregate emptyStore c4Log
    (fun _ => rfl) (by simp [emptyStore])

/-!
### C6: the shape of published DomainEvent payloads
-/

/-- The field names of a raw FormattedEventLog object (the TypeScript names;
the complete-set log carries the market under the key market, not marketId,
and has no numPurchasedOrSold key). -/
def rawLogFields : List String :=
  ["eventName", "blockNumber", "logIndex", "transactionHash", "orderId", "orderType",
   "market", "account", "universe", "numCompleteSets", "tradeGroupId", "payoutNumerators",
   "invalid", "disputeCrowdsourcer", "size"]

/-- The shape (set of field names) of an emitted payload object: the
CompleteSetsRow columns for the forward complete-sets handler, the raw log's
fields for handlers that emit the log unchanged, and the merged
log-plus-context fields for the order-canceled pair (Object.assign adds
marketId, outcome and price when the context row was found; orderType is
already a log field and only its value is overridden). -/
def payloadFields : Payload → List String
  | Payload.completeSetsRow _ =>
    ["marketId", "account", "blockNumber", "universe", "eventName", "transactionHash",
     "logIndex", "tradeGroupId", "numCompleteSets", "numPurchasedOrSold"]
  | Payload.rawLog _ => rawLogFields
  | Payload.orderCanceled _ ctx =>
    rawLogFields ++ (match ctx with
      | some _ => ["marketId", "outcome", "price"]
      | none => [])

/-- The payloads emitted along an effect trace, in order. -/
def emittedPayloads (tr : List Effect) : List Payload :=
  tr.filterMap (fun e => match e with
    | Effect.emit _ p => some p
    | _ => none)

/-- The shapes of the payloads emitted by a handler run (empty on handler
failure). -/
def emittedShapes (r : Except String (Store × List Effect)) : List (List String) :=
  match r with
  | Except.ok (_, tr) => (emittedPayloads tr).map payloadFields
  | Except.error _ => []

/-- A store holding the market row 0xM6, for the C6 counterexample. -/
def c6Store : Store :=
  { emptyStore with
    markets := [{ marketId := "0xM6", minPrice := 0, maxPrice := 1, numTicks := 10 }] }

/-- A complete-sets purchase log for market 0xM6. -/
def c6Log : FormattedEventLog :=
  { eventName := "CompleteSetsPurchased", blockNumber := 6, logIndex := 0,
    transactionHash := "0xT6", orderId := "", orderType := "", market := "0xM6",
    account := "0xA6", universeId := "0xU6", numCompleteSets := 50, tradeGroupId := "",
    payoutNumerators := [], invalid := false, disputeCrowdsourcer := "", size := 0 }

/-- The result of applying c6Log to c6Store. -/
def c6ApplyResult : Except String (Store × List Effect) :=
  processCompleteSetsPurchasedOrSoldLog c6Store c6Log

/-- The result of then reverting c6Log on the post-apply store. -/
def c6RemovalResult : Except String (Store × List Effect) :=
  match c6ApplyResult with
  | Except.ok (db1, _) => processCompleteSetsPurchasedOrSoldLogRemoval db1 c6Log
  | Except.error e => Except.error e

/-- C6 counterexample: the complete-set apply and removal handlers publish
payloads of different shapes for the same log: the apply payload is the
constructed row (with marketId and numPurchasedOrSold keys), while the
removal payload is the raw log (with a market key and neither marketId nor
numPurchasedOrSold). -/
theorem C6_payload_shape_counterexample :
    c6ApplyResult.isOk = true ∧ c6RemovalResult.isOk = true ∧
    emittedShapes c6ApplyResult ≠ emittedShapes c6RemovalResult ∧
    "marketId" ∈ (emittedShapes c6ApplyResult).flatten ∧
    "marketId" ∉ (emittedShapes c6RemovalResult).flatten ∧
    "numPurchasedOrSold" ∈ (emittedShapes c6ApplyResult).flatten ∧
    "numPurchasedOrSold" ∉ (emittedShapes c6RemovalResult).flatten ∧
    "market" ∈ (emittedShapes c6RemovalResult).flatten ∧
    "market" ∉ (emittedShapes c6ApplyResult).flatten := by
  refine ⟨rfl, rfl, by decide, by decide, by decide, by decide, by decide, by decide,
    by decide⟩

lemma find_isSome_map_setState (q : String) (st : OrderState) (xs : List OrdersRow) :
    ((xs.map (fun r =>
        if r.orderId == q then { r with orderState := st } else r)).find?
      (fun r => r.orderId == q)).isSome =
    (xs.find? (fun r => r.orderId == q)).isSome := by
  induction xs with
  | nil => rfl
  | cons a as ih =>
    by_cases h2 : a.orderId = q
    · subst h2
      simp [-List.find?_map]
    · simp only [List.map_cons]
      simp [h2, -List.find?_map] at ih ⊢
      exact ih

lemma payloadFields_orderCanceled (l : FormattedEventLog)
    (ctx : Option MarketIDAndOutcomeAndPrice) :
    payloadFields (Payload.orderCanceled l ctx) =
      rawLogFields ++ (if ctx.isSome then ["marketId", "outcome", "price"] else []) := by
  cases ctx <;> rfl

lemma emittedPayloads_orderCanceledTrace (p : Payload) :
    (emittedPayloads [Effect.dbWrite "orders", Effect.dbWrite "orders_canceled",
      Effect.dbRead "orders", Effect.emit "OrderCanceled" p]).map payloadFields =
    [payloadFields p] := rfl

/-- C6 amended: identical payload shape for apply and revert holds for the
order-canceled pair (both publish the merged log-plus-context object), but
not for the complete-set pair, whose apply publishes the constructed row
while its removal publishes the raw log. -/
theorem C6_order_canceled_same_shape (db : Store) (log : FormattedEventLog)
    (db1 db2 : Store) (tr1 tr2 : List Effect)
    (h1 : processOrderCanceledLog db log = Except.ok (db1, tr1))
    (h2 : processOrderCanceledLogRemoval db1 log = Except.ok (db2, tr2)) :
    (emittedPayloads tr1).map payloadFields = (emittedPayloads tr2).map payloadFields := by
  simp only [processOrderCanceledLog, Except.ok.injEq, Prod.mk.injEq] at h1
  obtain ⟨hdb1, htr1⟩ := h1
  simp only [processOrderCanceledLogRemoval, Except.ok.injEq, Prod.mk.injEq] at h2
  obtain ⟨-, htr2⟩ := h2
  subst htr1
  subst htr2
  rw [← hdb1]
  dsimp only
  rw [emittedPayloads_orderCanceledTrace, emittedPayloads_orderCanceledTrace,
    payloadFields_orderCanceled, payloadFields_orderCanceled,
    Option.isSome_map', Option.isSome_map',
    find_isSome_map_setState, find_isSome_map_setState, find_isSome_map_setState]

/-- The cancellation log used by the C6 witness. -/
def c6oLog : FormattedEventLog :=
  { eventName := "OrderCanceled", blockNumber := 8, logIndex := 3, transactionHash := "0xT6o",
    orderId := "0xO6", orderType := "0", market := "0xM6", account := "0xA6",
    universeId := "0xU6", numCompleteSets := 0, tradeGroupId := "", payoutNumerators := [],
    invalid := false, disputeCrowdsourcer := "", size := 0 }

/-- The store after applying c6oLog to the empty store. -/
def c6oApplied : Store :=
  { emptyStore with
    orders_canceled := [{ orderId := "0xO6", transactionHash := "0xT6o", logIndex := 3,
                          blockNumber := 8 }] }

/-- The effect trace both order-canceled handlers produce on the empty
store. -/
def c6oTrace : List Effect :=
  [Effect.dbWrite "orders", Effect.dbWrite "orders_canceled", Effect.dbRead "orders",
   Effect.emit "OrderCanceled" (Payload.orderCanceled c6oLog none)]

/-- Witness for the amended C6 statement at the empty store. -/
theorem C6_order_canceled_same_shape_witness :
    (emittedPayloads c6oTrace).map payloadFields =
      (emittedPayloads c6oTrace).map payloadFields :=
  C6_order_canceled_same_shape emptyStore c6oLog c6oApplied emptyStore c6oTrace c6oTrace
    rfl rfl

/-!
### C8: when the notification is published relative to the mutations
-/

/-- True when no database write occurs anywhere after an emit in the
trace. -/
def noWriteAfterEmit : List Effect → Bool
  | [] => true
  | Effect.emit _ _ :: rest =>
    (rest.all (fun e => match e with
      | Effect.dbWrite _ => false
      | _ => true)) && noWriteAfterEmit rest
  | _ :: rest => noWriteAfterEmit rest

/-- The effect trace of a handler run (empty on failure). -/
def traceOf (r : Except String (Store × List Effect)) : List Effect :=
  match r with
  | Except.ok (_, tr) => tr
  | Except.error _ => []

/-- A store holding the market row 0xM8, for the C8 counterexample. -/
def c8Store : Store :=
  { emptyStore with
    markets := [{ marketId := "0xM8", minPrice := 0, maxPrice := 2, numTicks := 200 }] }

/-- A complete-sets purchase log of 500 on-chain units (5 display units) for
market 0xM8. -/
def c8Log : FormattedEventLog :=
  { eventName := "CompleteSetsPurchased", blockNumber := 12, logIndex := 4,
    transactionHash := "0xT8", orderId := "", orderType := "", market := "0xM8",
    account := "0xA8", universeId := "0xU8", numCompleteSets := 500, tradeGroupId := "",
    payoutNumerators := [], invalid := false, disputeCrowdsourcer := "", size := 0 }

/-- C8 counterexample: both complete-set handlers emit the DomainEvent before
the open-interest recomputation write, so the notification is not published
only after all of the handler's mutations (let alone after commit). -/
theorem C8_emit_ordering_counterexample :
    (processCompleteSetsPurchasedOrSoldLog c8Store c8Log).isOk = true ∧
    noWriteAfterEmit (traceOf (processCompleteSetsPurchasedOrSoldLog c8Store c8Log)) = false ∧
    noWriteAfterEmit (traceOf
      (processCompleteSetsPurchasedOrSoldLogRemoval c8Store c8Log)) = false := by
  refine ⟨rfl, rfl, rfl⟩

/-- C8 amended: on success the complete-set handlers emit the notification
inside the handler, after the fill insert or delete but before the
open-interest recomputation write; the publish-only-after-commit policy does
not hold at handler level. -/
theorem C8_emit_before_recompute (db : Store) (log : FormattedEventLog) :
    (∀ db1 tr, processCompleteSetsPurchasedOrSoldLog db log = Except.ok (db1, tr) →
      ∃ p, tr = [Effect.dbRead "markets", Effect.dbWrite "completeSets",
        Effect.emit log.eventName p, Effect.dbWrite "open_interest"]) ∧
    (∀ db1 tr, processCompleteSetsPurchasedOrSoldLogRemoval db log = Except.ok (db1, tr) →
      tr = [Effect.dbWrite "completeSets", Effect.emit log.eventName (Payload.rawLog log),
        Effect.dbWrite "open_interest"]) := by
  constructor
  · intro db1 tr h
    cases hfind : db.markets.find? (fun r => r.marketId == log.market) with
    | none => simp [processCompleteSetsPurchasedOrSoldLog, hfind] at h
    | some marketsRow =>
      obtain ⟨row, -, -, -, -, heq⟩ := processCompleteSets_ok_shape db log marketsRow hfind
      rw [heq] at h
      simp only [Except.ok.injEq, Prod.mk.injEq] at h
      exact ⟨Payload.completeSetsRow row, h.2.symm⟩
  · intro db1 tr h
    simp only [processCompleteSetsPurchasedOrSoldLogRemoval, Except.ok.injEq,
      Prod.mk.injEq] at h
    exact h.2.symm

/-- Witness for the amended C8 statement: the removal trace on the concrete
store has the emit strictly before the recomputation write. -/
theorem C8_emit_before_recompute_witness :
    traceOf (processCompleteSetsPurchasedOrSoldLogRemoval c8Store c8Log) =
      [Effect.dbWrite "completeSets", Effect.emit c8Log.eventName (Payload.rawLog c8Log),
       Effect.dbWrite "open_interest"] :=
  (C8_emit_before_recompute c8Store c8Log).2
    (updateOpenInterest
      { c8Store with completeSets := c8Store.completeSets.filter (fun r =>
          !(r.transactionHash == c8Log.transactionHash && r.logIndex == c8Log.logIndex)) }
      c8Log.market)
    (traceOf (processCompleteSetsPurchasedOrSoldLogRemoval c8Store c8Log)) rfl

/-!
### C7: idempotent find-or-create of the payout dimension
-/

/-- C7: applying a dispute crowdsourcer creation whose
(market, payoutNumerators, invalid) triple is not yet present creates exactly
one new payout row which the inserted crowdsourcer references, and applying a
second creation with the same triple reuses that payout row rather than
duplicating it; each handler run performs the payout resolution and the
crowdsourcer insert in the same transaction (a single atomic store
transition). -/
theorem C7_payout_find_or_create (db : Store) (l1 l2 : FormattedEventLog)
    (hm : l2.market = l1.market) (hp : l2.payoutNumerators = l1.payoutNumerators)
    (hi : l2.invalid = l1.invalid)
    (hnone : ∀ r ∈ db.payouts,
      ¬(r.marketId = l1.market ∧ r.payoutNumerators = l1.payoutNumerators ∧
        r.invalid = l1.invalid)) :
    ∃ (newRow : PayoutsRow) (db1 db2 : Store) (tr1 tr2 : List Effect)
      (cr1 cr2 : CrowdsourcersRow),
      processDisputeCrowdsourcerCreatedLog db l1 = Except.ok (db1, tr1) ∧
      db1.payouts = db.payouts ++ [newRow] ∧
      newRow.marketId = l1.market ∧ newRow.payoutNumerators = l1.payoutNumerators ∧
      newRow.invalid = l1.invalid ∧
      db1.crowdsourcers = db.crowdsourcers ++ [cr1] ∧
      cr1.payoutID = newRow.payoutID ∧ cr1.crowdsourcerID = l1.disputeCrowdsourcer ∧
      processDisputeCrowdsourcerCreatedLog db1 l2 = Except.ok (db2, tr2) ∧
      db2.payouts = db1.payouts ∧
      db2.crowdsourcers = db1.crowdsourcers ++ [cr2] ∧
      cr2.payoutID = newRow.payoutID ∧ cr2.crowdsourcerID = l2.disputeCrowdsourcer := by
  have hfind1 : db.payouts.find? (fun r =>
      r.marketId == l1.market && r.payoutNumerators == l1.payoutNumerators &&
        r.invalid == l1.invalid) = none := by
    apply List.find?_eq_none.mpr
    intro r hr
    have hnr := hnone r hr
    simp only [Bool.and_eq_true, beq_iff_eq]
    tauto
  set N : PayoutsRow :=
    { payoutID := db.payouts.length, marketId := l1.market,
      payoutNumerators := l1.payoutNumerators, invalid := l1.invalid } with hN
  set C1r : CrowdsourcersRow :=
    { blockNumber := l1.blockNumber, transactionHash := l1.transactionHash,
      logIndex := l1.logIndex, crowdsourcerID := l1.disputeCrowdsourcer,
      marketID := l1.market, size := l1.size, payoutID := db.payouts.length } with hC1
  set C2r : CrowdsourcersRow :=
    { blockNumber := l2.blockNumber, transactionHash := l2.transactionHash,
      logIndex := l2.logIndex, crowdsourcerID := l2.disputeCrowdsourcer,
      marketID := l2.market, size := l2.size, payoutID := db.payouts.length } with hC2
  refine ⟨N,
    { db with payouts := db.payouts ++ [N], crowdsourcers := db.crowdsourcers ++ [C1r] },
    { db with payouts := db.payouts ++ [N],
              crowdsourcers := db.crowdsourcers ++ [C1r] ++ [C2r] },
    [Effect.dbWrite "payouts", Effect.dbWrite "crowdsourcers",
     Effect.emit "DisputeCrowdsourcerCreated" (Payload.rawLog l1)],
    [Effect.dbWrite "payouts", Effect.dbWrite "crowdsourcers",
     Effect.emit "DisputeCrowdsourcerCreated" (Payload.rawLog l2)],
    C1r, C2r, ?_, rfl, rfl, rfl, rfl, rfl, rfl, rfl, ?_, rfl, rfl, rfl, rfl⟩
  · simp [processDisputeCrowdsourcerCreatedLog, insertPayout, hfind1, hN, hC1]
  · simp only [processDisputeCrowdsourcerCreatedLog, insertPayout, hm, hp, hi]
    rw [List.find?_append, hfind1]
    simp [hN, hC2, List.find?_singleton]
    exact hm.symm

/-- The first dispute-crowdsourcer creation log of the C7 witness. -/
def c7Log1 : FormattedEventLog :=
  { eventName := "DisputeCrowdsourcerCreated", blockNumber := 20, logIndex := 0,
    transactionHash := "0xT7a", orderId := "", orderType := "", market := "0xM7",
    account := "", universeId := "0xU7", numCompleteSets := 0, tradeGroupId := "",
    payoutNumerators := [0, 100], invalid := false, disputeCrowdsourcer := "0xC7a",
    size := 10 }

/-- The second creation log of the C7 witness: same payout triple, different
crowdsourcer. -/
def c7Log2 : FormattedEventLog :=
  { eventName := "DisputeCrowdsourcerCreated", blockNumber := 21, logIndex := 1,
    transactionHash := "0xT7b", orderId := "", orderType := "", market := "0xM7",
    account := "", universeId := "0xU7", numCompleteSets := 0, tradeGroupId := "",
    payoutNumerators := [0, 100], invalid := false, disputeCrowdsourcer := "0xC7b",
    size := 20 }

/-- Witness for C7 at the empty store with two concrete creations sharing one
payout triple. -/
theorem C7_payout_find_or_create_witness :
    ∃ (newRow : PayoutsRow) (db1 db2 : Store) (tr1 tr2 : List Effect)
      (cr1 cr2 : CrowdsourcersRow),
      processDisputeCrowdsourcerCreatedLog emptyStore c7Log1 = Except.ok (db1, tr1) ∧
      db1.payouts = emptyStore.payouts ++ [newRow] ∧
      newRow.marketId = c7Log1.market ∧
      newRow.payoutNumerators = c7Log1.payoutNumerators ∧
      newRow.invalid = c7Log1.invalid ∧
      db1.crowdsourcers = emptyStore.crowdsourcers ++ [cr1] ∧
      cr1.payoutID = newRow.payoutID ∧ cr1.crowdsourcerID = c7Log1.disputeCrowdsourcer ∧
      processDisputeCrowdsourcerCreatedLog db1 c7Log2 = Except.ok (db2, tr2) ∧
      db2.payouts = db1.payouts ∧
      db2.crowdsourcers = db1.crowdsourcers ++ [cr2] ∧
      cr2.payoutID = newRow.payoutID ∧ cr2.crowdsourcerID = c7Log2.disputeCrowdsourcer :=
  C7_payout_find_or_create emptyStore c7Log1 c7Log2 rfl rfl rfl (by simp [emptyStore])

end AugurNode
